import Mathlib

set_option maxHeartbeats 1000000

/-!
Verification of the stdio JSON-RPC dispatch servers of this repository:
the SQLite-backed query/execute/schema responder
(demos/sql-injection-privilege-amplification/mock-sqlite-mcp-server.py),
the plain echo responder (demos/parent-child-bypass/echo-server.py), and
the AI-delegation server with keyed context persistence
(mcp-servers/gemini-a2a/server.py).

Decoded JSON values are modelled by the inductive `Json`; a decoded object is
an association list of its (distinct) keys, `Python dict.get(k)` being
`List.lookup k`.  Machine I/O boundaries (the SQLite engine, the spawned
`gemini` subprocess, the clock, the directory walk) are abstracted as explicit
parameters; everything the repository's own Python code does with their
answers is translated directly.
-/

/-- A decoded JSON value, the result of a successful `json.loads` on an input
line.  Numbers are restricted to integers, which covers every number these
servers construct or inspect. -/
inductive Json where
  | null
  | bool (b : Bool)
  | num (n : Int)
  | str (s : String)
  | arr (elems : List Json)
  | obj (fields : List (String × Json))

mutual

/-- Python `repr` of a decoded JSON value (`None` / `True` / `'text'` / `[..]`
/ dicts), as produced when such a value is interpolated into an f-string via
`str`, which coincides with `repr` for containers.  Escape sequences inside
string contents are not reproduced; no property proved below inspects them. -/
def pyRepr : Json → String
  | Json.null => "None"
  | Json.bool true => "True"
  | Json.bool false => "False"
  | Json.num n => toString n
  | Json.str s => "\x27" ++ s ++ "\x27"
  | Json.arr es => "[" ++ pyReprElems es ++ "]"
  | Json.obj fs => "\x7b" ++ pyReprFields fs ++ "\x7d"

/-- Comma-separated `repr` of list elements. -/
def pyReprElems : List Json → String
  | [] => ""
  | [e] => pyRepr e
  | e :: es => pyRepr e ++ ", " ++ pyReprElems es

/-- Comma-separated `repr` of dict entries. -/
def pyReprFields : List (String × Json) → String
  | [] => ""
  | [(k, v)] => "\x27" ++ k ++ "\x27: " ++ pyRepr v
  | (k, v) :: fs => "\x27" ++ k ++ "\x27: " ++ pyRepr v ++ ", " ++ pyReprFields fs

end

/-- Python `str` of a decoded JSON value, as used by f-string interpolation:
the identity on strings, `repr`-like on everything else. -/
def jsonFStr : Json → String
  | Json.str s => s
  | j => pyRepr j

/-- F-string rendering of `dict.get(k)`: `None` when the key is absent. -/
def pyFStrOpt : Option Json → String
  | none => "None"
  | some j => jsonFStr j

/-- Python truthiness of a decoded JSON value (`if value:`). -/
def Json.truthy : Json → Bool
  | Json.null => false
  | Json.bool b => b
  | Json.num n => n != 0
  | Json.str s => s != ""
  | Json.arr es => !es.isEmpty
  | Json.obj fs => !fs.isEmpty

/-! ## The JSON-RPC response envelope -/

/-- The `error` member of an error envelope: `{"code": .., "message": ..}`. -/
structure ErrorInfo where
  code : Int
  message : String

/-- Exactly one of `result` / `error`, as the servers construct envelopes. -/
inductive Body where
  | result (val : Json)
  | error (err : ErrorInfo)

/-- One serialized response line: `{"jsonrpc": .., "id": .., result|error}`. -/
structure Response where
  jsonrpc : String
  id : Json
  body : Body

/-- Success envelope constructor (`"jsonrpc": "2.0"` is fixed). -/
def mkOk (id : Json) (val : Json) : Response :=
  ⟨"2.0", id, Body.result val⟩

/-- Error envelope constructor. -/
def mkError (id : Json) (code : Int) (message : String) : Response :=
  ⟨"2.0", id, Body.error ⟨code, message⟩⟩

/-! ## The SQLite-backed server (mock-sqlite-mcp-server.py)

The `sqlite3` connection is abstracted as a `SqlEngine` over an opaque
database state: `query`/`exec` answer a raw SQL string with either an error
text (the `str(e)` of the raised exception) or a result plus the successor
state, and `schema` answers the introspection pair of statements
(`sqlite_master` then `PRAGMA table_info` per table) with the raw
`table_info` rows.  Everything `handle_query` / `handle_execute` /
`handle_schema` / `main` do with the answers is translated from the source. -/

/-- One fetched row, as `dict(row)`: column name to cell value. -/
abbrev Row := List (String × Json)

/-- One raw `PRAGMA table_info` row: `(cid, name, type, notnull, dflt_value,
pk)`; the handler reads indices 1, 2, 3 and 5. -/
structure ColInfo where
  cid : Nat
  name : String
  type : String
  notnull : Nat
  dflt : Option String
  pk : Nat

/-- The abstracted backing relational store. -/
structure SqlEngine (DB : Type) where
  query : DB → String → Except String (List Row × DB)
  exec : DB → String → Except String (Int × DB)
  schema : DB → Except String (List (String × List ColInfo))

/-- Models `request.get("id", 1)`: the response id, defaulting to the integer 1. -/
def defaultId (fields : List (String × Json)) : Json :=
  (List.lookup "id" fields).getD (Json.num 1)

/-- Stands for the interpreter text of the `TypeError` raised when
`request["params"]` is subscripted though it is not a dict, or when a non-str
SQL value reaches `conn.execute`; the handler only embeds `str(e)` into its
message and no property proved below inspects this text. -/
def typeErrText : String := "TypeError"

/-- The `result` member built by `handle_query` on success. -/
def queryResult (rows : List Row) : Json :=
  Json.obj [("data", Json.arr (rows.map Json.obj)),
            ("row_count", Json.num (rows.length : Int)),
            ("status", Json.str "success")]

/-- Evaluation of the subscript expression `request["params"]["sql"]`:
either the SQL string, or the `str(e)` of the exception its evaluation (or
the subsequent `conn.execute` on a non-string) raises — `str(KeyError(k))`
is the quoted key; a non-string SQL value raises only at `conn.execute`, but
since the same `except Exception` block catches both, that case is folded in
here.  `pySqlOf` handles the inner `["sql"]` subscript of a dict. -/
def pySqlOf : Option Json → Except String String
  | none => Except.error "\x27sql\x27"
  | some (Json.str sql) => Except.ok sql
  | some _ => Except.error typeErrText

/-- The outer `["params"]` subscript: `KeyError` when absent, `TypeError`
when the value is not a dict. -/
def pyGetSql : Option Json → Except String String
  | none => Except.error "\x27params\x27"
  | some (Json.obj p) => pySqlOf (List.lookup "sql" p)
  | some _ => Except.error typeErrText

/-- Models `request["params"]["sql"]` on the whole request object. -/
def getSqlParam (fields : List (String × Json)) : Except String String :=
  pyGetSql (List.lookup "params" fields)

/-- What `handle_query` makes of the execution outcome: the catch-all error
envelope, or the row payload. -/
def queryDone {DB : Type} (db : DB) (fields : List (String × Json)) :
    Except String (List Row × DB) → Response × DB
  | Except.error e =>
    (mkError (defaultId fields) (-32000) ("Database error: " ++ e), db)
  | Except.ok (rows, db2) => (mkOk (defaultId fields) (queryResult rows), db2)

/-- Handler `handle_query`: `request["params"]["sql"]` is executed raw; any raised
exception (missing key, type error, SQLite error) is caught by the
`except Exception` block and reported as code `-32000` with message
`"Database error: " ++ str(e)`. -/
def handle_query {DB : Type} (E : SqlEngine DB) (db : DB)
    (fields : List (String × Json)) : Response × DB :=
  match getSqlParam fields with
  | Except.error e =>
    (mkError (defaultId fields) (-32000) ("Database error: " ++ e), db)
  | Except.ok sql => queryDone db fields (E.query db sql)

/-- The `result` member built by `handle_execute` on success
(`cursor.rowcount` may be any integer, e.g. `-1`). -/
def execResult (n : Int) : Json :=
  Json.obj [("rows_affected", Json.num n), ("status", Json.str "success")]

/-- What `handle_execute` makes of the execution outcome. -/
def execDone {DB : Type} (db : DB) (fields : List (String × Json)) :
    Except String (Int × DB) → Response × DB
  | Except.error e =>
    (mkError (defaultId fields) (-32000) ("Database error: " ++ e), db)
  | Except.ok (n, db2) => (mkOk (defaultId fields) (execResult n), db2)

/-- Handler `handle_execute`: same raw execution and same catch-all as
`handle_query`, reporting `rows_affected` on success. -/
def handle_execute {DB : Type} (E : SqlEngine DB) (db : DB)
    (fields : List (String × Json)) : Response × DB :=
  match getSqlParam fields with
  | Except.error e =>
    (mkError (defaultId fields) (-32000) ("Database error: " ++ e), db)
  | Except.ok sql => execDone db fields (E.exec db sql)

/-- One column descriptor as `handle_schema` builds it:
`bool(col[3])` and `bool(col[5])` are the non-zero tests. -/
def colDescriptor (c : ColInfo) : Json :=
  Json.obj [("name", Json.str c.name), ("type", Json.str c.type),
            ("not_null", Json.bool (c.notnull != 0)),
            ("primary_key", Json.bool (c.pk != 0))]

/-- Handler `handle_schema`: maps every table to its ordered column descriptors;
introspection failures hit the same catch-all as the other handlers. -/
def handle_schema {DB : Type} (E : SqlEngine DB) (db : DB)
    (fields : List (String × Json)) : Response × DB :=
  match E.schema db with
  | Except.error e =>
    (mkError (defaultId fields) (-32000) ("Database error: " ++ e), db)
  | Except.ok tables =>
    (mkOk (defaultId fields)
      (Json.obj
        [("tables",
          Json.obj (tables.map (fun tc => (tc.1, Json.arr (tc.2.map colDescriptor))))),
         ("status", Json.str "success")]), db)

/-- The method dispatch of `main`: three `request.get("method") == ..`
comparisons (string equality; a non-string or absent method falls through),
else the `-32601` envelope with `f"Method not found: ..."`. -/
def dispatch {DB : Type} (E : SqlEngine DB) (db : DB)
    (fields : List (String × Json)) : Response × DB :=
  match List.lookup "method" fields with
  | some (Json.str m) =>
    if m = "database/query" then handle_query E db fields
    else if m = "database/execute" then handle_execute E db fields
    else if m = "database/schema" then handle_schema E db fields
    else (mkError (defaultId fields) (-32601) ("Method not found: " ++ m), db)
  | m => (mkError (defaultId fields) (-32601) ("Method not found: " ++ pyFStrOpt m), db)

/-- One input line of the SQLite server, classified as `main` classifies it:
stripped-empty (`if not line: continue`), `json.loads` failure
(`except json.JSONDecodeError`), or a decoded JSON value. -/
inductive Line where
  | blank
  | malformed (text : String)
  | parsed (j : Json)

/-- Outcome of processing one line: skip it, print one response, or die
(the `AttributeError` from `request.get` on a decoded non-object is caught by
neither `except` clause and kills the process). -/
inductive Step (DB : Type) where
  | skip (db : DB)
  | reply (r : Response) (db : DB)
  | crash

/-- One iteration of the `while True` loop of `main` on an already-read line. -/
def sqliteStep {DB : Type} (E : SqlEngine DB) (db : DB) : Line → Step DB
  | Line.blank => Step.skip db
  | Line.malformed _ => Step.skip db
  | Line.parsed (Json.obj fields) =>
    Step.reply (dispatch E db fields).1 (dispatch E db fields).2
  | Line.parsed Json.null => Step.crash
  | Line.parsed (Json.bool _) => Step.crash
  | Line.parsed (Json.num _) => Step.crash
  | Line.parsed (Json.str _) => Step.crash
  | Line.parsed (Json.arr _) => Step.crash

/-- The whole loop of `main` over a finite stdin: the list of stdout lines
(each a serialized `Response`) paired with `true` when end-of-stream was
reached normally (`except EOFError: break`) and `false` when the process died. -/
def runServer {DB : Type} (E : SqlEngine DB) : DB → List Line → List Response × Bool
  | _, [] => ([], true)
  | db, l :: ls =>
    match sqliteStep E db l with
    | Step.skip db2 => runServer E db2 ls
    | Step.reply r db2 => (r :: (runServer E db2 ls).1, (runServer E db2 ls).2)
    | Step.crash => ([], false)

/-- A line the loop survives: anything except a decoded non-object. -/
def lineSafe : Line → Bool
  | Line.parsed Json.null => false
  | Line.parsed (Json.bool _) => false
  | Line.parsed (Json.num _) => false
  | Line.parsed (Json.str _) => false
  | Line.parsed (Json.arr _) => false
  | _ => true

/-- The response id a line is owed: one per decoded object, none otherwise. -/
def lineRespId : Line → Option Json
  | Line.parsed (Json.obj fields) => some (defaultId fields)
  | _ => none

/-- The three method names `main` recognizes. -/
def recognizedMethods : List String :=
  ["database/query", "database/execute", "database/schema"]

/-! ## The plain echo servers (echo-server.py, mock-mcp-server.py)

The echo server strips nothing and skips nothing: every line goes through
`json.loads`; a decode failure is echoed back on stdout as `[ECHO] <line>`;
a decoded non-object dies on `message.get` exactly as in the SQLite server. -/

/-- One input line of the echo server. -/
inductive EchoLine where
  | malformed (text : String)
  | parsed (j : Json)

/-- One stdout line of the echo server: a raw echo or a serialized response. -/
inductive EchoOut where
  | echo (s : String)
  | resp (r : Response)

/-- Outcome of one echo-server loop iteration. -/
inductive EchoStep where
  | out (o : EchoOut)
  | crash

/-- The response the echo server builds for a decoded object: the `query`
method reports the connection string it was started with, anything else is
echoed as `f"Echo: {message}"`; the id is `message.get("id")` (no default,
so a missing id serializes as `null`). -/
def echoResponse (cs : String) (fields : List (String × Json)) : Response :=
  match List.lookup "method" fields with
  | some (Json.str "query") =>
    mkOk ((List.lookup "id" fields).getD Json.null)
      (Json.obj [("data", Json.str ("Query executed on " ++ cs)),
                 ("status", Json.str "success")])
  | _ =>
    mkOk ((List.lookup "id" fields).getD Json.null)
      (Json.str ("Echo: " ++ pyRepr (Json.obj fields)))

/-- One iteration of the echo server's `while True` loop. -/
def echoStep (cs : String) : EchoLine → EchoStep
  | EchoLine.malformed t => EchoStep.out (EchoOut.echo ("[ECHO] " ++ t))
  | EchoLine.parsed (Json.obj fields) => EchoStep.out (EchoOut.resp (echoResponse cs fields))
  | EchoLine.parsed Json.null => EchoStep.crash
  | EchoLine.parsed (Json.bool _) => EchoStep.crash
  | EchoLine.parsed (Json.num _) => EchoStep.crash
  | EchoLine.parsed (Json.str _) => EchoStep.crash
  | EchoLine.parsed (Json.arr _) => EchoStep.crash

/-- The echo server's loop over a finite stdin: stdout lines plus a normal
end-of-stream flag, as for `runServer`. -/
def echoRun (cs : String) : List EchoLine → List EchoOut × Bool
  | [] => ([], true)
  | l :: ls =>
    match echoStep cs l with
    | EchoStep.out o => (o :: (echoRun cs ls).1, (echoRun cs ls).2)
    | EchoStep.crash => ([], false)

/-! ## The gemini-a2a server (mcp-servers/gemini-a2a/server.py)

The context directory is modelled as an association list from file name
(relative to `CONTEXT_DIR`) to content, written with overwrite semantics as
`Path.write_text` does.  The operating system around the server — the spawned
subprocess, the clock, the `rglob` walk — is an explicit `Env`. -/

/-- The context directory: newest write first, `fsRead` finds it. -/
abbrev FS := List (String × String)

/-- Models `Path.write_text`: wholesale overwrite of the named file. -/
def fsWrite (fs : FS) (path content : String) : FS := (path, content) :: fs

/-- Models `Path.read_text` of a file that may not exist. -/
def fsRead (fs : FS) (path : String) : Option String := List.lookup path fs

/-- Models `Path.exists`. -/
def fsExists (fs : FS) (path : String) : Bool := (fsRead fs path).isSome

/-- What launching the external executable did: `FileNotFoundError`, or a
completed run with an exit code and captured stdout/stderr. -/
inductive ExecOutcome where
  | notFound
  | ran (exitCode : Int) (stdoutText stderrText : String)

/-- The ambient operating system: subprocess behavior per command line,
the two timestamp renderings, and the codebase walk
(`rglob pattern` under a root, yielding readable files with their contents —
files whose read raises are already absent, as the `except: continue` skips
them). -/
structure Env where
  run : List String → ExecOutcome
  nowStamp : String
  nowIso : String
  rglob : String → String → List (String × String)

/-- The argument vector `call_gemini` builds: `--context-file` only when a
path was supplied and the file exists. -/
def geminiCmd (fs : FS) (prompt : String) (contextFile : Option String) : List String :=
  match contextFile with
  | some f =>
    if fsExists fs f then ["gemini", "--context-file", f, "--prompt", prompt]
    else ["gemini", "--prompt", prompt]
  | none => ["gemini", "--prompt", prompt]

/-- The clearly-labeled fallback returned when the executable is absent. -/
def mockResponse (prompt : String) : String :=
  "[Mock Gemini Response]\nPrompt: " ++ prompt ++
    "\nNote: Install gemini-cli for real responses"

/-- Delegate invoker `call_gemini`: run the tool; `FileNotFoundError` degrades to the mock
response; a non-zero exit raises `GeminiError(f"Gemini failed: {stderr}")`,
modelled as the `Except.error` carrying that message; otherwise the captured
stdout is returned. -/
def call_gemini (env : Env) (fs : FS) (prompt : String)
    (contextFile : Option String) : Except String String :=
  match env.run (geminiCmd fs prompt contextFile) with
  | ExecOutcome.notFound => Except.ok (mockResponse prompt)
  | ExecOutcome.ran code sout serr =>
    if code = 0 then Except.ok sout else Except.error ("Gemini failed: " ++ serr)

/-- One `ToolResult(toolCallId=.., content=[TextContent(text=..)])`. -/
structure ToolRes where
  toolCallId : String
  text : String

/-- Tool arguments: the decoded JSON object the framework hands `call_tool`. -/
abbrev Args := List (String × Json)

/-- The `analyze_codebase` prompt template. -/
def analysisPrompt (query : String) : String :=
  "\nAnalyze the provided codebase with the following query:\n" ++ query ++
    "\n\nPlease provide:\n1. Direct answer to the query\n2. Supporting evidence from the code\n3. Potential concerns or improvements\n4. Architectural insights\n5. Cybernetic ecology observations (feedback loops, system relationships, etc.)\n"

/-- The `gemini_remember` prompt template. -/
def rememberPrompt (topic information : String) : String :=
  "\nRemember this information for future reference:\n\nTopic: " ++ topic ++
    "\nInformation: " ++ information ++
    "\n\nPlease acknowledge and summarize what you\x27re remembering.\n"

/-- The `gemini_recall` prompt template. -/
def recallPrompt (topic question : String) : String :=
  "\nRecall information about: " ++ topic ++ "\nSpecific question: " ++ question ++
    "\n\nSearch your memory and provide relevant information.\n"

/-- The default `specific_question` of `gemini_recall`. -/
def defaultQuestion (topic : String) : String :=
  "What do you remember about " ++ topic ++ "?"

mutual

/-- Models `json.dumps` of a decoded value, used only to render the metadata file
content of `store_context`; the `indent=2` whitespace is not reproduced and
no property proved below inspects this text. -/
def jsonDumps : Json → String
  | Json.null => "null"
  | Json.bool true => "true"
  | Json.bool false => "false"
  | Json.num n => toString n
  | Json.str s => "\"" ++ s ++ "\""
  | Json.arr es => "[" ++ dumpsElems es ++ "]"
  | Json.obj fs => "\x7b" ++ dumpsFields fs ++ "\x7d"

/-- Comma-separated dump of list elements. -/
def dumpsElems : List Json → String
  | [] => ""
  | [e] => jsonDumps e
  | e :: es => jsonDumps e ++ ", " ++ dumpsElems es

/-- Comma-separated dump of object entries. -/
def dumpsFields : List (String × Json) → String
  | [] => ""
  | [(k, v)] => "\"" ++ k ++ "\": " ++ jsonDumps v
  | (k, v) :: fs => "\"" ++ k ++ "\": " ++ jsonDumps v ++ ", " ++ dumpsFields fs

end

/-- The content of the `{key}.meta.json` file `store_context` writes. -/
def metaFileText (nowIso : String) (metadata : Json) : String :=
  jsonDumps (Json.obj [("stored_at", Json.str nowIso), ("metadata", metadata)])

/-- Collects every value of a decoded list as the string `rglob` needs,
failing on any non-string (pathlib raises `TypeError` on such a pattern). -/
def allStrings : List Json → Option (List String)
  | [] => some []
  | Json.str s :: js => (allStrings js).map (fun ss => s :: ss)
  | _ :: _ => none

/-- Continuation of the `query_gemini` branch on the delegate's outcome: an
escaped `GeminiError`, or the optional response stash plus the result. -/
def queryGeminiDone (env : Env) (fs : FS) (args : Args) :
    Except String String → FS × Except String (List ToolRes)
  | Except.error e => (fs, Except.error e)
  | Except.ok response =>
    (if ((List.lookup "store_response" args).getD (Json.bool false)).truthy
      then fsWrite fs ("response_" ++ env.nowStamp ++ ".txt") response
      else fs,
     Except.ok [⟨"query_gemini", response⟩])

/-- Continuation of the `analyze_codebase` branch. -/
def analyzeDone (fs : FS) : Except String String → FS × Except String (List ToolRes)
  | Except.error e => (fs, Except.error e)
  | Except.ok r => (fs, Except.ok [⟨"analyze_codebase", r⟩])

/-- Continuation of the `gemini_remember` branch. -/
def rememberDone (fs : FS) : Except String String → FS × Except String (List ToolRes)
  | Except.error e => (fs, Except.error e)
  | Except.ok r => (fs, Except.ok [⟨"gemini_remember", r⟩])

/-- Continuation of the `gemini_recall` branch. -/
def recallDone (fs : FS) : Except String String → FS × Except String (List ToolRes)
  | Except.error e => (fs, Except.error e)
  | Except.ok r => (fs, Except.ok [⟨"gemini_recall", r⟩])

/-- Handler `call_tool`: the five tool branches plus the unknown-tool fallback,
translated from the source.  The returned pair carries the context directory
after the branch's writes (performed even when a later `call_gemini` raises)
and either the `ToolResult` list or the message of the exception that escaped
the handler — `str(KeyError(k))` is the quoted key; the interpreter text of a
`TypeError` raised by a wrongly-typed argument is stood for by `typeErrText`,
which no property proved below inspects. -/
def call_tool (env : Env) (fs : FS) (name : String) (args : Args) :
    FS × Except String (List ToolRes) :=
  if name = "query_gemini" then
    match List.lookup "prompt" args with
    | none => (fs, Except.error "\x27prompt\x27")
    | some (Json.str prompt) =>
      let contextFile : Option String :=
        match List.lookup "context_key" args with
        | some j => if j.truthy then some (jsonFStr j ++ ".context") else none
        | none => none
      queryGeminiDone env fs args (call_gemini env fs prompt contextFile)
    | some _ => (fs, Except.error typeErrText)
  else if name = "analyze_codebase" then
    match List.lookup "path" args with
    | none => (fs, Except.error "\x27path\x27")
    | some (Json.str path) =>
      match List.lookup "query" args with
      | none => (fs, Except.error "\x27query\x27")
      | some queryJ =>
        match (List.lookup "include_patterns" args).getD
            (Json.arr [Json.str "*.go", Json.str "*.py", Json.str "*.md"]) with
        | Json.arr pats =>
          match allStrings pats with
          | none => (fs, Except.error typeErrText)
          | some patterns =>
            let parts := (patterns.map (fun pat =>
              (env.rglob path pat).map
                (fun fc => "\n=== File: " ++ fc.1 ++ " ===\n" ++ fc.2))).flatten
            let fs2 := fsWrite fs "codebase_analysis.context" (String.intercalate "\n" parts)
            analyzeDone fs2 (call_gemini env fs2 (analysisPrompt (jsonFStr queryJ))
              (some "codebase_analysis.context"))
        | _ => (fs, Except.error typeErrText)
    | some _ => (fs, Except.error typeErrText)
  else if name = "store_context" then
    match List.lookup "key" args with
    | none => (fs, Except.error "\x27key\x27")
    | some keyJ =>
      match List.lookup "content" args with
      | none => (fs, Except.error "\x27content\x27")
      | some (Json.str content) =>
        let key := jsonFStr keyJ
        let metadata := (List.lookup "metadata" args).getD (Json.obj [])
        let fs2 := fsWrite fs (key ++ ".context") content
        let fs3 := if metadata.truthy
          then fsWrite fs2 (key ++ ".meta.json") (metaFileText env.nowIso metadata)
          else fs2
        (fs3, Except.ok [⟨"store_context", "Context stored with key: " ++ key⟩])
      | some _ => (fs, Except.error typeErrText)
  else if name = "gemini_remember" then
    match List.lookup "topic" args with
    | none => (fs, Except.error "\x27topic\x27")
    | some topicJ =>
      match List.lookup "information" args with
      | none => (fs, Except.error "\x27information\x27")
      | some infoJ =>
        let topic := jsonFStr topicJ
        let information := jsonFStr infoJ
        let existing := (fsRead fs "persistent_memory.context").getD ""
        let fs2 := fsWrite fs "persistent_memory.context"
          (existing ++ "\n\n[" ++ env.nowIso ++ "] " ++ topic ++ ":\n" ++ information)
        rememberDone fs2 (call_gemini env fs2 (rememberPrompt topic information)
          (some "persistent_memory.context"))
  else if name = "gemini_recall" then
    match List.lookup "topic" args with
    | none => (fs, Except.error "\x27topic\x27")
    | some topicJ =>
      let topic := jsonFStr topicJ
      let question := match List.lookup "specific_question" args with
        | none => defaultQuestion topic
        | some qJ => jsonFStr qJ
      recallDone fs (call_gemini env fs (recallPrompt topic question)
        (some "persistent_memory.context"))
  else
    (fs, Except.ok [⟨name, "Unknown tool: " ++ name⟩])

/-- Modelled from the spec: the Dispatch Loop of this server variant lives in
the third-party MCP framework, not under src/; section 7's propagation policy
says every per-request failure is caught at the handler boundary and
converted to an Error envelope (code `-32000` for execution failures, per
section 6), and nothing below the loop may terminate the process. -/
def handleToolCall (env : Env) (fs : FS) (name : String) (args : Args) :
    FS × Except ErrorInfo (List ToolRes) :=
  match call_tool env fs name args with
  | (fs2, Except.ok r) => (fs2, Except.ok r)
  | (fs2, Except.error msg) => (fs2, Except.error ⟨-32000, msg⟩)

/-- Modelled from the spec: the Context Store operation
`recall(key) -> content | not-found` (section 4.3).  The repository contains
only the store side (`store_context` writes `{key}.context`); the read of a
stored record is delegated to the external gemini process via a
`--context-file` path, so the recall operation itself is not under src/.
Faithful to the spec's words: the most recently stored content for the key,
or a distinct not-found outcome. -/
def recallContext (fs : FS) (key : String) : Option String :=
  fsRead fs (key ++ ".context")

/-! ## Concrete fixtures used by closed theorems and witnesses -/

/-- An engine whose every statement fails with a SQLite syntax complaint,
as `sqlite3` answers a syntactically invalid statement. -/
def EngErr : SqlEngine Unit :=
  ⟨fun _ _ => Except.error "near \"SELEC\": syntax error",
   fun _ _ => Except.error "near \"SELEC\": syntax error",
   fun _ => Except.ok []⟩

/-- The `PRAGMA table_info(t)` rows for
`CREATE TABLE t(id INTEGER PRIMARY KEY, name TEXT NOT NULL)`, as SQLite
documents them: `notnull` reflects only an explicit NOT NULL constraint,
`pk` marks the primary-key column. -/
def tColumns : List ColInfo :=
  [⟨0, "id", "INTEGER", 0, none, 1⟩, ⟨1, "name", "TEXT", 1, none, 0⟩]

/-- An engine over the store holding exactly that one table `t`. -/
def EngT : SqlEngine Unit :=
  ⟨fun _ _ => Except.error "unused", fun _ _ => Except.error "unused",
   fun _ => Except.ok [("t", tColumns)]⟩

/-- A request object with no `method` key. -/
def fieldsU0 : List (String × Json) := [("id", Json.num 2)]

/-- A `database/query` request carrying syntactically invalid SQL. -/
def fieldsQ0 : List (String × Json) :=
  [("method", Json.str "database/query"), ("id", Json.num 3),
   ("params", Json.obj [("sql", Json.str "SELEC * FROM users")])]

/-- Its params object. -/
def pq0 : List (String × Json) := [("sql", Json.str "SELEC * FROM users")]

/-- A `database/execute` request carrying syntactically invalid SQL. -/
def fieldsE0 : List (String × Json) :=
  [("method", Json.str "database/execute"), ("id", Json.num 5),
   ("params", Json.obj [("sql", Json.str "SELEC * FROM users")])]

/-- Its params object. -/
def pe0 : List (String × Json) := [("sql", Json.str "SELEC * FROM users")]

/-- A well-formed request with no `id` key. -/
def fieldsNoId : List (String × Json) := [("method", Json.str "database/schema")]

/-- A `database/query` request with no `params` member at all. -/
def fieldsNoParams : List (String × Json) :=
  [("method", Json.str "database/query"), ("id", Json.num 9)]

/-- A `database/execute` request whose params object lacks `sql`. -/
def fieldsNoSql : List (String × Json) :=
  [("method", Json.str "database/execute"), ("id", Json.num 10),
   ("params", Json.obj [])]

/-- A stdin holding a decoded JSON number followed by a well-formed request
bearing id 7. -/
def crashLines : List Line :=
  [Line.parsed (Json.num 42),
   Line.parsed (Json.obj [("method", Json.str "database/schema"), ("id", Json.num 7)])]

/-- A mixed stdin with two well-formed requests, a blank and a malformed
line. -/
def linesW : List Line :=
  [Line.parsed (Json.obj [("method", Json.str "database/query"), ("id", Json.num 7),
     ("params", Json.obj [("sql", Json.str "SELECT 1")])]),
   Line.blank,
   Line.malformed "oops",
   Line.parsed (Json.obj [("method", Json.str "unknown/method"), ("id", Json.str "abc")])]

/-- An operating system on which the `gemini` executable exists but every
invocation exits with status 1 and a complaint on stderr. -/
def envFail : Env :=
  ⟨fun _ => ExecOutcome.ran 1 "" "gemini: authentication failure",
   "20260101_000000", "2026-01-01T00:00:00", fun _ _ => []⟩

/-- An operating system with no `gemini` executable on the search path. -/
def envAbsent : Env :=
  ⟨fun _ => ExecOutcome.notFound,
   "20260101_000000", "2026-01-01T00:00:00", fun _ _ => []⟩

/-! ## Theorems -/

/-- The row payload or catch-all of `handle_query` carries the default id. -/
theorem queryDone_id {DB : Type} (db : DB) (fields : List (String × Json))
    (r : Except String (List Row × DB)) :
    (queryDone db fields r).1.id = defaultId fields := by
  cases r with
  | error e => rfl
  | ok rd => obtain ⟨rows, db2⟩ := rd; rfl

/-- The payload or catch-all of `handle_execute` carries the default id. -/
theorem execDone_id {DB : Type} (db : DB) (fields : List (String × Json))
    (r : Except String (Int × DB)) :
    (execDone db fields r).1.id = defaultId fields := by
  cases r with
  | error e => rfl
  | ok rd => obtain ⟨n, db2⟩ := rd; rfl

/-- Every branch of `handle_query` stamps the response with
`request.get("id", 1)`. -/
theorem handle_query_id {DB : Type} (E : SqlEngine DB) (db : DB)
    (fields : List (String × Json)) :
    (handle_query E db fields).1.id = defaultId fields := by
  unfold handle_query
  split
  all_goals first
    | rfl
    | apply queryDone_id

/-- Every branch of `handle_execute` stamps the response with
`request.get("id", 1)`. -/
theorem handle_execute_id {DB : Type} (E : SqlEngine DB) (db : DB)
    (fields : List (String × Json)) :
    (handle_execute E db fields).1.id = defaultId fields := by
  unfold handle_execute
  split
  all_goals first
    | rfl
    | apply execDone_id

/-- Both branches of `handle_schema` stamp the response with
`request.get("id", 1)`. -/
theorem handle_schema_id {DB : Type} (E : SqlEngine DB) (db : DB)
    (fields : List (String × Json)) :
    (handle_schema E db fields).1.id = defaultId fields := by
  unfold handle_schema
  repeat' split
  all_goals rfl

/-- Whatever the method, the dispatched response carries
`request.get("id", 1)`. -/
theorem dispatch_id {DB : Type} (E : SqlEngine DB) (db : DB)
    (fields : List (String × Json)) :
    (dispatch E db fields).1.id = defaultId fields := by
  unfold dispatch
  repeat' split
  all_goals first
    | exact handle_query_id E db fields
    | exact handle_execute_id E db fields
    | exact handle_schema_id E db fields
    | rfl

/-- Claim C8: given method `database/schema` against a store containing one
table `t(id INTEGER PRIMARY KEY, name TEXT NOT NULL)`, the result maps `"t"`
to an ordered list of exactly two column descriptors
`{name, type, not_null, primary_key}` matching the declared column names,
types, nullability and primary-key flags in declaration order. -/
theorem claim_C8 :
    dispatch EngT () [("method", Json.str "database/schema"), ("id", Json.num 4)] =
      (mkOk (Json.num 4)
        (Json.obj
          [("tables", Json.obj [("t", Json.arr
            [Json.obj [("name", Json.str "id"), ("type", Json.str "INTEGER"),
                       ("not_null", Json.bool false), ("primary_key", Json.bool true)],
             Json.obj [("name", Json.str "name"), ("type", Json.str "TEXT"),
                       ("not_null", Json.bool true), ("primary_key", Json.bool false)]])]),
           ("status", Json.str "success")]), ()) := rfl

/-- Claim C1, counterexample: over the input sequence `crashLines` — a line
that decodes to the JSON number 42 followed by a well-formed request bearing
id 7 — the SQLite server emits no response at all (the uncaught
`AttributeError` from `request.get` kills the process, `false` marking the
abnormal exit), so the id-7 request does not receive exactly one response. -/
theorem claim_C1_cex : runServer EngErr () crashLines = ([], false) := rfl

/-- Claim C3, counterexample: the database-backed server (cited by the claim)
handed the non-JSON line `"hello not json"` emits nothing on its output
stream — the diagnostic goes to stderr and the line is skipped — so no
echo-marked line containing the input appears on stdout. -/
theorem claim_C3_cex :
    runServer EngErr () [Line.malformed "hello not json"] = ([], true) := rfl

/-- Claim C1, amended: over any input sequence in which every line that
decodes as JSON decodes to a JSON object, the SQLite server reaches
end-of-stream normally and emits exactly one response per decoded object, in
the order the requests arrived, each stamped with `request.get("id", 1)` —
in particular a request carrying a non-null id receives exactly one response
bearing that id, in arrival order.  (The proviso is forced by
`claim_C1_cex`: a decoded non-object kills the process.) -/
theorem claim_C1_amended {DB : Type} (E : SqlEngine DB) (db : DB)
    (lines : List Line) (h : lines.all lineSafe = true) :
    (runServer E db lines).1.map Response.id = lines.filterMap lineRespId ∧
    (runServer E db lines).2 = true := by
  induction lines generalizing db with
  | nil => exact ⟨rfl, rfl⟩
  | cons l ls ih =>
    rw [List.all_cons, Bool.and_eq_true] at h
    obtain ⟨hl, hls⟩ := h
    cases l with
    | blank => simpa [runServer, sqliteStep, lineRespId] using ih db hls
    | malformed t => simpa [runServer, sqliteStep, lineRespId] using ih db hls
    | parsed j =>
      cases j with
      | obj fields =>
        obtain ⟨ih1, ih2⟩ := ih (dispatch E db fields).2 hls
        refine ⟨?_, ?_⟩
        · simp [runServer, sqliteStep, lineRespId, ih1, dispatch_id]
        · simpa [runServer, sqliteStep] using ih2
      | null => simp [lineSafe] at hl
      | bool b => simp [lineSafe] at hl
      | num n => simp [lineSafe] at hl
      | str s => simp [lineSafe] at hl
      | arr es => simp [lineSafe] at hl

/-- Witness for the amended claim C1 at the concrete stdin `linesW`:
the two decoded objects get exactly the responses with ids 7 and `"abc"`,
in order, and the server exits normally. -/
theorem claim_C1_witness :
    linesW.all lineSafe = true ∧
    ((runServer EngErr () linesW).1.map Response.id = linesW.filterMap lineRespId ∧
      (runServer EngErr () linesW).2 = true) :=
  ⟨rfl, claim_C1_amended EngErr () linesW rfl⟩

/-- Claim C3, amended: for every input line that fails to parse as JSON, the
echo servers emit on their output stream the input verbatim prefixed with the
echo marker and the loop continues; the database-backed server emits nothing
on its output stream for such a line and likewise continues; in particular
neither server ever terminates on a stdin of arbitrarily many malformed
lines. -/
theorem claim_C3_amended {DB : Type} (E : SqlEngine DB) (db : DB)
    (cs t : String) (rest : List EchoLine) (rest2 : List Line) (ts : List String) :
    echoRun cs (EchoLine.malformed t :: rest) =
      (EchoOut.echo ("[ECHO] " ++ t) :: (echoRun cs rest).1, (echoRun cs rest).2) ∧
    echoRun cs (ts.map EchoLine.malformed) =
      (ts.map (fun s => EchoOut.echo ("[ECHO] " ++ s)), true) ∧
    runServer E db (Line.malformed t :: rest2) = runServer E db rest2 ∧
    runServer E db (ts.map Line.malformed) = ([], true) := by
  refine ⟨rfl, ?_, rfl, ?_⟩
  · induction ts with
    | nil => rfl
    | cons s ss ih => simp [echoRun, echoStep, ih]
  · induction ts with
    | nil => rfl
    | cons s ss ih => simpa [runServer, sqliteStep] using ih

/-- A `database/query` method string selects `handle_query`. -/
theorem dispatch_query {DB : Type} (E : SqlEngine DB) (db : DB)
    (fields : List (String × Json))
    (h : List.lookup "method" fields = some (Json.str "database/query")) :
    dispatch E db fields = handle_query E db fields := by
  unfold dispatch
  rw [h]
  rfl

/-- A `database/execute` method string selects `handle_execute`. -/
theorem dispatch_execute {DB : Type} (E : SqlEngine DB) (db : DB)
    (fields : List (String × Json))
    (h : List.lookup "method" fields = some (Json.str "database/execute")) :
    dispatch E db fields = handle_execute E db fields := by
  unfold dispatch
  rw [h]
  rfl

/-- A method outside the three recognized names falls to the `-32601`
envelope, whatever shape the `method` member has. -/
theorem dispatch_unknown {DB : Type} (E : SqlEngine DB) (db : DB)
    (fields : List (String × Json))
    (hu : ∀ s ∈ recognizedMethods, List.lookup "method" fields ≠ some (Json.str s)) :
    dispatch E db fields =
      (mkError (defaultId fields) (-32601)
        ("Method not found: " ++ pyFStrOpt (List.lookup "method" fields)), db) := by
  unfold dispatch
  cases hm : List.lookup "method" fields with
  | none => rfl
  | some j =>
    cases j with
    | str m =>
      have h1 : ¬ m = "database/query" := fun e =>
        hu "database/query" (by simp [recognizedMethods]) (by rw [hm, e])
      have h2 : ¬ m = "database/execute" := fun e =>
        hu "database/execute" (by simp [recognizedMethods]) (by rw [hm, e])
      have h3 : ¬ m = "database/schema" := fun e =>
        hu "database/schema" (by simp [recognizedMethods]) (by rw [hm, e])
      show (if m = "database/query" then handle_query E db fields
        else if m = "database/execute" then handle_execute E db fields
        else if m = "database/schema" then handle_schema E db fields
        else (mkError (defaultId fields) (-32601) ("Method not found: " ++ m), db)) =
        (mkError (defaultId fields) (-32601)
          ("Method not found: " ++ pyFStrOpt (some (Json.str m))), db)
      rw [if_neg h1, if_neg h2, if_neg h3]
      rfl
    | null => rfl
    | bool b => rfl
    | num n => rfl
    | arr es => rfl
    | obj o => rfl

/-- A present params dict with a string `sql` member evaluates to that SQL. -/
theorem getSqlParam_ok (fields p : List (String × Json)) (sql : String)
    (hp : List.lookup "params" fields = some (Json.obj p))
    (hs : List.lookup "sql" p = some (Json.str sql)) :
    getSqlParam fields = Except.ok sql := by
  unfold getSqlParam
  rw [hp]
  show pySqlOf (List.lookup "sql" p) = Except.ok sql
  rw [hs]
  rfl

/-- An absent params member raises `KeyError('params')`. -/
theorem getSqlParam_no_params (fields : List (String × Json))
    (hp : List.lookup "params" fields = none) :
    getSqlParam fields = Except.error "\x27params\x27" := by
  unfold getSqlParam
  rw [hp]
  rfl

/-- A params dict with no `sql` member raises `KeyError('sql')`. -/
theorem getSqlParam_no_sql (fields p : List (String × Json))
    (hp : List.lookup "params" fields = some (Json.obj p))
    (hs : List.lookup "sql" p = none) :
    getSqlParam fields = Except.error "\x27sql\x27" := by
  unfold getSqlParam
  rw [hp]
  show pySqlOf (List.lookup "sql" p) = Except.error "\x27sql\x27"
  rw [hs]
  rfl

/-- When the SQL was extracted, `handle_query` reports exactly the engine's
outcome. -/
theorem handle_query_run {DB : Type} (E : SqlEngine DB) (db : DB)
    (fields : List (String × Json)) (sql : String)
    (hg : getSqlParam fields = Except.ok sql) :
    handle_query E db fields = queryDone db fields (E.query db sql) := by
  unfold handle_query
  rw [hg]

/-- When the subscripting raised, `handle_query` reports the catch-all
envelope. -/
theorem handle_query_raise {DB : Type} (E : SqlEngine DB) (db : DB)
    (fields : List (String × Json)) (e : String)
    (hg : getSqlParam fields = Except.error e) :
    handle_query E db fields =
      (mkError (defaultId fields) (-32000) ("Database error: " ++ e), db) := by
  unfold handle_query
  rw [hg]

/-- When the SQL was extracted, `handle_execute` reports exactly the engine's
outcome. -/
theorem handle_execute_run {DB : Type} (E : SqlEngine DB) (db : DB)
    (fields : List (String × Json)) (sql : String)
    (hg : getSqlParam fields = Except.ok sql) :
    handle_execute E db fields = execDone db fields (E.exec db sql) := by
  unfold handle_execute
  rw [hg]

/-- When the subscripting raised, `handle_execute` reports the catch-all
envelope. -/
theorem handle_execute_raise {DB : Type} (E : SqlEngine DB) (db : DB)
    (fields : List (String × Json)) (e : String)
    (hg : getSqlParam fields = Except.error e) :
    handle_execute E db fields =
      (mkError (defaultId fields) (-32000) ("Database error: " ++ e), db) := by
  unfold handle_execute
  rw [hg]

/-- Claim C2: in the database-backed variant, a request whose method is none
of `database/query` / `database/execute` / `database/schema` yields the
`-32601` envelope; a `database/query` or `database/execute` request whose SQL
execution fails yields the `-32000` envelope whose message contains the
underlying store's error text; and on such a failing line the loop emits
that one envelope and continues with the rest of the input — the process does
not exit. -/
theorem claim_C2 {DB : Type} (E : SqlEngine DB) (db : DB)
    (fieldsU fieldsQ fieldsE pq pe : List (String × Json))
    (sqlq sqle errq erre : String) (rest : List Line)
    (hu : ∀ s ∈ recognizedMethods, List.lookup "method" fieldsU ≠ some (Json.str s))
    (hqm : List.lookup "method" fieldsQ = some (Json.str "database/query"))
    (hqp : List.lookup "params" fieldsQ = some (Json.obj pq))
    (hqs : List.lookup "sql" pq = some (Json.str sqlq))
    (hqe : E.query db sqlq = Except.error errq)
    (hem : List.lookup "method" fieldsE = some (Json.str "database/execute"))
    (hep : List.lookup "params" fieldsE = some (Json.obj pe))
    (hes : List.lookup "sql" pe = some (Json.str sqle))
    (hee : E.exec db sqle = Except.error erre) :
    dispatch E db fieldsU =
      (mkError (defaultId fieldsU) (-32601)
        ("Method not found: " ++ pyFStrOpt (List.lookup "method" fieldsU)), db) ∧
    dispatch E db fieldsQ =
      (mkError (defaultId fieldsQ) (-32000) ("Database error: " ++ errq), db) ∧
    dispatch E db fieldsE =
      (mkError (defaultId fieldsE) (-32000) ("Database error: " ++ erre), db) ∧
    errq.data <:+: ("Database error: " ++ errq).data ∧
    runServer E db (Line.parsed (Json.obj fieldsQ) :: rest) =
      (mkError (defaultId fieldsQ) (-32000) ("Database error: " ++ errq) ::
        (runServer E db rest).1, (runServer E db rest).2) := by
  have hQ : dispatch E db fieldsQ =
      (mkError (defaultId fieldsQ) (-32000) ("Database error: " ++ errq), db) := by
    rw [dispatch_query E db fieldsQ hqm,
      handle_query_run E db fieldsQ sqlq (getSqlParam_ok fieldsQ pq sqlq hqp hqs), hqe]
    rfl
  have hE : dispatch E db fieldsE =
      (mkError (defaultId fieldsE) (-32000) ("Database error: " ++ erre), db) := by
    rw [dispatch_execute E db fieldsE hem,
      handle_execute_run E db fieldsE sqle (getSqlParam_ok fieldsE pe sqle hep hes), hee]
    rfl
  refine ⟨dispatch_unknown E db fieldsU hu, hQ, hE, ?_, ?_⟩
  · rw [String.data_append]
    exact List.IsSuffix.isInfix ( List.suffix_append _ _)
  · show (let st := sqliteStep E db (Line.parsed (Json.obj fieldsQ));
      match st with
      | Step.skip db2 => runServer E db2 rest
      | Step.reply r db2 => (r :: (runServer E db2 rest).1, (runServer E db2 rest).2)
      | Step.crash => ([], false)) = _
    show (match Step.reply (dispatch E db fieldsQ).1 (dispatch E db fieldsQ).2 with
      | Step.skip db2 => runServer E db2 rest
      | Step.reply r db2 => (r :: (runServer E db2 rest).1, (runServer E db2 rest).2)
      | Step.crash => ([], false)) = _
    rw [hQ]

/-- Witness for claim C2 at a concrete engine and concrete requests: the
method-less request gets the `-32601` envelope, the two invalid-SQL requests
get `-32000` envelopes carrying the SQLite complaint, and the loop finishes
the input normally. -/
theorem claim_C2_witness :
    List.lookup "method" fieldsQ0 = some (Json.str "database/query") ∧
    EngErr.query () "SELEC * FROM users" =
      Except.error "near \"SELEC\": syntax error" ∧
    dispatch EngErr () fieldsU0 =
      (mkError (Json.num 2) (-32601) "Method not found: None", ()) ∧
    dispatch EngErr () fieldsQ0 =
      (mkError (Json.num 3) (-32000) "Database error: near \"SELEC\": syntax error", ()) ∧
    dispatch EngErr () fieldsE0 =
      (mkError (Json.num 5) (-32000) "Database error: near \"SELEC\": syntax error", ()) ∧
    runServer EngErr () [Line.parsed (Json.obj fieldsQ0)] =
      ([mkError (Json.num 3) (-32000) "Database error: near \"SELEC\": syntax error"],
        true) := by
  have h := claim_C2 EngErr () fieldsU0 fieldsQ0 fieldsE0 pq0 pe0
    "SELEC * FROM users" "SELEC * FROM users"
    "near \"SELEC\": syntax error" "near \"SELEC\": syntax error" []
    (by
      intro s _ hc
      rw [show List.lookup "method" fieldsU0 = (none : Option Json) from rfl] at hc
      exact Option.noConfusion hc)
    rfl rfl rfl rfl rfl rfl rfl rfl
  exact ⟨rfl, rfl, h.1, h.2.1, h.2.2.1, h.2.2.2.2⟩

/-- Claim C9: a well-formed request that lacks an `id` member entirely still
gets exactly one response, whose id is the integer 1, and the loop then
continues with the rest of the input. -/
theorem claim_C9 {DB : Type} (E : SqlEngine DB) (db : DB)
    (fields : List (String × Json)) (rest : List Line)
    (hid : List.lookup "id" fields = none) :
    (dispatch E db fields).1.id = Json.num 1 ∧
    runServer E db (Line.parsed (Json.obj fields) :: rest) =
      ((dispatch E db fields).1 :: (runServer E (dispatch E db fields).2 rest).1,
        (runServer E (dispatch E db fields).2 rest).2) := by
  refine ⟨?_, rfl⟩
  rw [dispatch_id]
  unfold defaultId
  rw [hid]
  rfl

/-- Witness for claim C9 at the concrete id-less request `fieldsNoId`. -/
theorem claim_C9_witness :
    List.lookup "id" fieldsNoId = none ∧
    ((dispatch EngT () fieldsNoId).1.id = Json.num 1 ∧
      runServer EngT () (Line.parsed (Json.obj fieldsNoId) :: []) =
        ((dispatch EngT () fieldsNoId).1 ::
            (runServer EngT (dispatch EngT () fieldsNoId).2 []).1,
          (runServer EngT (dispatch EngT () fieldsNoId).2 []).2)) :=
  ⟨rfl, claim_C9 EngT () fieldsNoId [] rfl⟩

/-- Claim C10: a `database/query` or `database/execute` request whose params
member is absent, or whose params dict has no `sql` member, gets the
`-32000` envelope naming the missing key (the `str` of the caught
`KeyError`), and the loop then continues with the rest of the input. -/
theorem claim_C10 {DB : Type} (E : SqlEngine DB) (db : DB)
    (fields p : List (String × Json)) (rest : List Line)
    (hm : List.lookup "method" fields = some (Json.str "database/query") ∨
          List.lookup "method" fields = some (Json.str "database/execute")) :
    (List.lookup "params" fields = none →
      dispatch E db fields =
        (mkError (defaultId fields) (-32000) "Database error: \x27params\x27", db)) ∧
    (List.lookup "params" fields = some (Json.obj p) → List.lookup "sql" p = none →
      dispatch E db fields =
        (mkError (defaultId fields) (-32000) "Database error: \x27sql\x27", db)) ∧
    runServer E db (Line.parsed (Json.obj fields) :: rest) =
      ((dispatch E db fields).1 :: (runServer E (dispatch E db fields).2 rest).1,
        (runServer E (dispatch E db fields).2 rest).2) := by
  refine ⟨fun hp => ?_, fun hp hs => ?_, rfl⟩
  · cases hm with
    | inl h =>
      rw [dispatch_query E db fields h,
        handle_query_raise E db fields _ (getSqlParam_no_params fields hp)]
      rfl
    | inr h =>
      rw [dispatch_execute E db fields h,
        handle_execute_raise E db fields _ (getSqlParam_no_params fields hp)]
      rfl
  · cases hm with
    | inl h =>
      rw [dispatch_query E db fields h,
        handle_query_raise E db fields _ (getSqlParam_no_sql fields p hp hs)]
      rfl
    | inr h =>
      rw [dispatch_execute E db fields h,
        handle_execute_raise E db fields _ (getSqlParam_no_sql fields p hp hs)]
      rfl

/-- Witness for claim C10: a params-less query request and an sql-less
execute request, both answered with the `-32000` envelope naming the missing
key. -/
theorem claim_C10_witness :
    List.lookup "method" fieldsNoParams = some (Json.str "database/query") ∧
    List.lookup "params" fieldsNoParams = none ∧
    dispatch EngErr () fieldsNoParams =
      (mkError (Json.num 9) (-32000) "Database error: \x27params\x27", ()) ∧
    dispatch EngErr () fieldsNoSql =
      (mkError (Json.num 10) (-32000) "Database error: \x27sql\x27", ()) := by
  have h1 := claim_C10 EngErr () fieldsNoParams [] [] (Or.inl rfl)
  have h2 := claim_C10 EngErr () fieldsNoSql [] [] (Or.inr rfl)
  exact ⟨rfl, rfl, h1.1 rfl, h2.2.1 rfl rfl⟩

/-- Claim C4: for every key and content, `store(key, content)` immediately
followed by `recall(key)` returns the content unchanged; after a second
`store(key, content2)` under the same key, `recall(key)` returns `content2`
alone — the record is overwritten wholesale, never a merge of both contents.
The store side is the `store_context` tool; the recall side is the
spec-modelled `recallContext`. -/
theorem claim_C4 (env : Env) (fs : FS) (key content content2 : String) :
    (call_tool env fs "store_context"
        [("key", Json.str key), ("content", Json.str content)]).2 =
      Except.ok [⟨"store_context", "Context stored with key: " ++ key⟩] ∧
    recallContext (call_tool env fs "store_context"
        [("key", Json.str key), ("content", Json.str content)]).1 key =
      some content ∧
    recallContext (call_tool env
        (call_tool env fs "store_context"
          [("key", Json.str key), ("content", Json.str content)]).1
        "store_context" [("key", Json.str key), ("content", Json.str content2)]).1
        key =
      some content2 := by
  refine ⟨rfl, ?_, ?_⟩
  · show List.lookup (key ++ ".context") ((key ++ ".context", content) :: fs) =
      some content
    exact List.lookup_cons_self
  · show List.lookup (key ++ ".context")
      ((key ++ ".context", content2) :: (key ++ ".context", content) :: fs) =
      some content2
    exact List.lookup_cons_self

/-- Claim C5: when the external delegate exists but exits non-zero, the
invocation surfaces as a domain error carrying the captured stderr in its
message — a value distinct from any success, hence from the not-found mock
result — and the handler boundary converts it to an Error envelope instead
of letting it terminate the process. -/
theorem claim_C5 (env : Env) (fs : FS) (prompt sout serr : String) (code : Int)
    (hrun : env.run ["gemini", "--prompt", prompt] = ExecOutcome.ran code sout serr)
    (hnz : ¬ code = 0) :
    call_gemini env fs prompt none = Except.error ("Gemini failed: " ++ serr) ∧
    (∀ s : String,
      (Except.error ("Gemini failed: " ++ serr) : Except String String) ≠
        Except.ok s) ∧
    handleToolCall env fs "query_gemini" [("prompt", Json.str prompt)] =
      (fs, Except.error ⟨-32000, "Gemini failed: " ++ serr⟩) := by
  have hcg : call_gemini env fs prompt none =
      Except.error ("Gemini failed: " ++ serr) := by
    unfold call_gemini
    rw [show geminiCmd fs prompt none = ["gemini", "--prompt", prompt] from rfl, hrun]
    show (if code = 0 then Except.ok sout
      else Except.error ("Gemini failed: " ++ serr)) =
      Except.error ("Gemini failed: " ++ serr)
    rw [if_neg hnz]
  have hct : call_tool env fs "query_gemini" [("prompt", Json.str prompt)] =
      (fs, Except.error ("Gemini failed: " ++ serr)) := by
    show queryGeminiDone env fs [("prompt", Json.str prompt)]
      (call_gemini env fs prompt none) = _
    rw [hcg]
    rfl
  refine ⟨hcg, fun s h => Except.noConfusion h, ?_⟩
  unfold handleToolCall
  rw [hct]

/-- Witness for claim C5 on the concrete environment `envFail`, where every
invocation exits with status 1 and the stderr complaint. -/
theorem claim_C5_witness :
    envFail.run ["gemini", "--prompt", "hello"] =
      ExecOutcome.ran 1 "" "gemini: authentication failure" ∧
    ¬ (1 : Int) = 0 ∧
    (call_gemini envFail [] "hello" none =
        Except.error ("Gemini failed: " ++ "gemini: authentication failure") ∧
      (∀ s : String,
        (Except.error ("Gemini failed: " ++ "gemini: authentication failure") :
            Except String String) ≠ Except.ok s) ∧
      handleToolCall envFail [] "query_gemini" [("prompt", Json.str "hello")] =
        ([], Except.error ⟨-32000, "Gemini failed: " ++ "gemini: authentication failure"⟩)) :=
  ⟨rfl, by decide, claim_C5 envFail [] "hello" "" "gemini: authentication failure" 1
    rfl (by decide)⟩

/-- Claim C6: when the external delegate executable is absent from the search
path, the invocation returns the clearly-labeled mock fallback — a string
containing the `Mock` marker — rather than raising, and the `query_gemini`
request still succeeds. -/
theorem claim_C6 (env : Env) (fs : FS) (prompt : String) (ctx : Option String)
    (hnf : env.run (geminiCmd fs prompt ctx) = ExecOutcome.notFound)
    (hnf2 : env.run ["gemini", "--prompt", prompt] = ExecOutcome.notFound) :
    call_gemini env fs prompt ctx = Except.ok (mockResponse prompt) ∧
    "Mock".data <:+: (mockResponse prompt).data ∧
    handleToolCall env fs "query_gemini" [("prompt", Json.str prompt)] =
      (fs, Except.ok [⟨"query_gemini", mockResponse prompt⟩]) := by
  have hcg : call_gemini env fs prompt ctx = Except.ok (mockResponse prompt) := by
    unfold call_gemini
    rw [hnf]
  have hcg0 : call_gemini env fs prompt none = Except.ok (mockResponse prompt) := by
    unfold call_gemini
    rw [show geminiCmd fs prompt none = ["gemini", "--prompt", prompt] from rfl, hnf2]
  have hmk : "Mock".data <:+: (mockResponse prompt).data := by
    have h1 : "Mock".data <:+: "[Mock Gemini Response]\nPrompt: ".data :=
      ⟨"[".data, " Gemini Response]\nPrompt: ".data, by rfl⟩
    have h2 : (mockResponse prompt).data =
        "[Mock Gemini Response]\nPrompt: ".data ++
          (prompt.data ++ "\nNote: Install gemini-cli for real responses".data) := by
      unfold mockResponse
      rw [String.data_append, String.data_append, List.append_assoc]
    rw [h2]
    exact List.IsInfix.trans h1 ( List.IsPrefix.isInfix ( List.prefix_append _ _))
  have hct : call_tool env fs "query_gemini" [("prompt", Json.str prompt)] =
      (fs, Except.ok [⟨"query_gemini", mockResponse prompt⟩]) := by
    show queryGeminiDone env fs [("prompt", Json.str prompt)]
      (call_gemini env fs prompt none) = _
    rw [hcg0]
    rfl
  refine ⟨hcg, hmk, ?_⟩
  unfold handleToolCall
  rw [hct]

/-- Witness for claim C6 on the concrete environment `envAbsent`, where the
executable is missing. -/
theorem claim_C6_witness :
    envAbsent.run (geminiCmd [] "hello" none) = ExecOutcome.notFound ∧
    (call_gemini envAbsent [] "hello" none = Except.ok (mockResponse "hello") ∧
      "Mock".data <:+: (mockResponse "hello").data ∧
      handleToolCall envAbsent [] "query_gemini" [("prompt", Json.str "hello")] =
        ([], Except.ok [⟨"query_gemini", mockResponse "hello"⟩])) :=
  ⟨rfl, claim_C6 envAbsent [] "hello" none rfl rfl⟩

/-- Claim C7: `recall(key)` on a never-stored key reports the distinct
not-found outcome rather than crashing; the outcome is non-fatal, and the
`gemini_recall` caller still invokes the downstream delegate — with no
`--context-file` argument when the memory file does not exist, i.e. with
empty context. -/
theorem claim_C7 (env : Env) (fs : FS) (key topic : String)
    (hkey : fsRead fs (key ++ ".context") = none)
    (hmem : fsRead fs "persistent_memory.context" = none) :
    recallContext fs key = none ∧
    geminiCmd fs (recallPrompt topic (defaultQuestion topic))
        (some "persistent_memory.context") =
      ["gemini", "--prompt", recallPrompt topic (defaultQuestion topic)] ∧
    call_tool env fs "gemini_recall" [("topic", Json.str topic)] =
      recallDone fs (call_gemini env fs (recallPrompt topic (defaultQuestion topic))
        (some "persistent_memory.context")) := by
  have hex : fsExists fs "persistent_memory.context" = false := by
    unfold fsExists
    rw [hmem]
    rfl
  refine ⟨hkey, ?_, rfl⟩
  unfold geminiCmd
  show (if fsExists fs "persistent_memory.context" = true
    then ["gemini", "--context-file", "persistent_memory.context", "--prompt",
      recallPrompt topic (defaultQuestion topic)]
    else ["gemini", "--prompt", recallPrompt topic (defaultQuestion topic)]) =
    ["gemini", "--prompt", recallPrompt topic (defaultQuestion topic)]
  rw [if_neg (show ¬ fsExists fs "persistent_memory.context" = true by
    rw [hex]
    decide)]

/-- Witness for claim C7 on the empty context directory: the key was never
stored, recall reports not-found, and the delegate is invoked without a
context file. -/
theorem claim_C7_witness :
    fsRead ([] : FS) ("k" ++ ".context") = none ∧
    fsRead ([] : FS) "persistent_memory.context" = none ∧
    (recallContext ([] : FS) "k" = none ∧
      geminiCmd ([] : FS) (recallPrompt "t" (defaultQuestion "t"))
          (some "persistent_memory.context") =
        ["gemini", "--prompt", recallPrompt "t" (defaultQuestion "t")] ∧
      call_tool envAbsent ([] : FS) "gemini_recall" [("topic", Json.str "t")] =
        recallDone ([] : FS)
          (call_gemini envAbsent ([] : FS) (recallPrompt "t" (defaultQuestion "t"))
            (some "persistent_memory.context"))) :=
  ⟨rfl, rfl, claim_C7 envAbsent [] "k" "t" rfl rfl⟩
